import Mathlib

/-!
Verification of the messaging core of the Chat-Application repository.

Strings of the program (user ids, chat ids, message content) are modelled as
lists of character codes (`List Nat`, one entry per UTF-16 code unit as read by
JavaScript's `charCodeAt`/`fromCharCode`).  `str` turns a Lean string literal
into that representation for concrete inputs.  Stateful database code is
modelled by explicit state passing: the message collection is a `List Msg`,
the user collection a `List UserRec`, and every storage method becomes a pure
function from the old state (plus its arguments) to the new state and result.
-/

def str (s : String) : List Nat := s.toList.map Char.toNat

deriving instance DecidableEq for Except

/-! ## Cipher (client/src/lib/encryption.ts, quoted in src/client/src/hooks/useAuth.ts)

`encrypt` and `decrypt` are Caesar shifts by 3 over ASCII letters; every
character that does not match `/[a-z]/i` is returned unchanged. -/

/-- `char.match(/[a-z]/i)`: an ASCII letter, upper or lower case. -/
def isAsciiLetter (c : Nat) : Bool := (65 ≤ c && c ≤ 90) || (97 ≤ c && c ≤ 122)

/-- One character of `encrypt`: shift a letter forward by 3 inside its case
range (`((code - base + shift) % 26) + base` with `shift = 3`). -/
def encryptChar (c : Nat) : Nat :=
  if isAsciiLetter c then
    let base := if 65 ≤ c && c ≤ 90 then 65 else 97
    (c - base + 3) % 26 + base
  else c

/-- One character of `decrypt`: `((code - base - shift + 26) % 26) + base`
with `shift = 3`; on a letter `c - base ≤ 25`, so this is `(c - base + 23) % 26 + base`. -/
def decryptChar (c : Nat) : Nat :=
  if isAsciiLetter c then
    let base := if 65 ≤ c && c ≤ 90 then 65 else 97
    (c - base + 23) % 26 + base
  else c

def encrypt (s : List Nat) : List Nat := s.map encryptChar

def decrypt (s : List Nat) : List Nat := s.map decryptChar

/-! ## Data model

The `@shared/schema` module appears twice in
src/client/src/components/chat/sidebar.tsx.  Version A declares
`MessageSchema {_id, senderId, receiverId, encryptedContent, isRead,
createdAt, updatedAt}`; version B declares `MessageSchema {_id, chatId,
senderId, content, isRead, createdAt, updatedAt}`.  The part_012 storage
reads `result.encryptedContent` and queries `senderId`/`receiverId`, so it
runs against version A: `Msg` is that record.  Mongoose strict mode drops
undeclared fields at save and declares no `chatId`, `readBy`, `content` or
`sender` path in version A.  The storage.ts mongoose variant used by
socket.ts maps `message.chatId`/`message.content`, i.e. version B: `SMsg`
below is that record. -/

structure Msg where
  id : List Nat
  senderId : List Nat
  receiverId : List Nat
  encryptedContent : List Nat
  isRead : Bool
  createdAt : Nat
  updatedAt : Nat
  deriving DecidableEq, Repr

/-- A version-B message as `mapMessageToClient` of the storage.ts mongoose
variant returns it. -/
structure SMsg where
  id : List Nat
  chatId : List Nat
  senderId : List Nat
  content : List Nat
  isRead : Bool
  createdAt : Nat
  updatedAt : Nat
  deriving DecidableEq, Repr

/-- A message object as handed back to a caller: the persisted record plus the
transient `content` property the storage layer attaches (absent = undefined). -/
structure MsgView where
  msg : Msg
  content : Option (List Nat)
  deriving DecidableEq, Repr

structure UserRec where
  id : List Nat
  username : List Nat
  password : List Nat
  firstName : List Nat
  lastName : List Nat
  status : List Nat
  deriving DecidableEq, Repr

structure StoreState where
  users : List UserRec
  msgs : List Msg
  deriving DecidableEq, Repr

/-- JavaScript's `String.prototype.split(sep)` for a one-character separator. -/
def splitOnSep (sep : Nat) : List Nat → List (List Nat)
  | [] => [[]]
  | c :: rest =>
    match splitOnSep sep rest with
    | [] => [[]]
    | h :: t => if c == sep then [] :: h :: t else (c :: h) :: t

/-- Models `mongoose.Types.ObjectId.isValid` (library code, not in the
repository): a 24-character hex string, or any 12-character string
(interpreted as 12 raw bytes), names a valid ObjectId. -/
def isValidObjectId (id : List Nat) : Bool :=
  (id.length == 24 &&
    id.all (fun c =>
      (48 ≤ c && c ≤ 57) || (97 ≤ c && c ≤ 102) || (65 ≤ c && c ≤ 70))) ||
  id.length == 12

/-- A stable insertion sort stands in for the database/`Array.prototype.sort`
ordering steps (`le a b` = the comparator does not put `a` after `b`). -/
def insertLe (le : α → α → Bool) (x : α) : List α → List α
  | [] => [x]
  | y :: ys => if le x y then x :: y :: ys else y :: insertLe le x ys

def insertionSort (le : α → α → Bool) : List α → List α
  | [] => []
  | x :: xs => insertLe le x (insertionSort le xs)

/-! ## Message Store (DatabaseStorage of src/unnamed/part_012) -/

/-- `getUser`: `null` unless the id is a valid ObjectId, else `findById`. -/
def getUser (users : List UserRec) (id : List Nat) : Option UserRec :=
  if isValidObjectId id then users.find? (fun u => u.id == id) else none

/-- The receiver derivation inside `createMessage`:
`chatId.split('_').find(id => id !== senderId)` followed by the
`if (!receiverId) throw` falsiness check — the call throws both when `find`
yields undefined (no component differs from the sender) and when the first
differing component is the empty string. -/
def deriveReceiver (chatId senderId : List Nat) : Option (List Nat) :=
  match (splitOnSep 95 chatId).find? (fun piece => piece != senderId) with
  | none => none
  | some receiverId => if receiverId.isEmpty then none else some receiverId

/-- `DatabaseStorage.createMessage` (part_012 lines 41-87): derive the
receiver (throw on a falsy result), persist the record with the content the
caller passed (already encrypted by the caller) and the current timestamp,
and return it with a `content` property holding
`decrypt(result.encryptedContent)`.  The constructor is also handed `chatId`,
but the version-A schema declares no such path, so strict mode drops it from
the persisted document.  `newId`/`now` stand for the ObjectId and timestamp
the database assigns. -/
def createMessage (store : List Msg) (chatId senderId content : List Nat)
    (isRead : Bool) (newId : List Nat) (now : Nat) :
    Except (List Nat) (List Msg × MsgView) :=
  match deriveReceiver chatId senderId with
  | none => .error (str "Could not derive receiverId from chatId")
  | some receiverId =>
    let m : Msg := { id := newId, senderId := senderId,
                     receiverId := receiverId, encryptedContent := content,
                     isRead := isRead, createdAt := now, updatedAt := now }
    .ok (store ++ [m], { msg := m, content := some (decrypt content) })

/-- Reading the `content` path of a persisted version-A record: the schema
declares no such path, so the read yields undefined. -/
def storedContentField (_ : Msg) : Option (List Nat) := none

/-- Reading the `chatId` path of a persisted version-A record: the schema
declares no such path (strict mode already dropped the field at save), so
the read yields undefined. -/
def storedChatIdField (_ : Msg) : Option (List Nat) := none

/-- JavaScript `decrypt` applied to a possibly-undefined value: on a string it
is `decrypt`; on undefined the `try`/`catch` returns the input unchanged. -/
def jsDecryptOpt : Option (List Nat) → Option (List Nat)
  | none => none
  | some s => some (decrypt s)

/-- `DatabaseStorage.getMessagesByChatId` (part_012 lines 89-102):
`find({chatId})` sorted ascending by `createdAt`, each result given
`content := decrypt(message.content)`.  The equality filter compares the
`chatId` path of each document with the requested value; no persisted
version-A document carries that path, so no document ever matches, and the
`content` read is likewise of an undeclared path. -/
def getMessagesByChatId (store : List Msg) (chatId : List Nat) : List MsgView :=
  let msgs := insertionSort (fun a b => a.createdAt ≤ b.createdAt)
    (store.filter (fun m => storedChatIdField m == some chatId))
  msgs.map (fun m => { msg := m, content := jsDecryptOpt (storedContentField m) })

/-- `DatabaseStorage.markMessagesInChatAsRead` (part_012 lines 104-114):
`updateMany` with filter `{chatId, sender: {$ne: receiverId}, readBy: {$ne:
receiverId}}` and update `{$addToSet: {readBy: receiverId}}`.  The filter's
`chatId` equality tests a path no persisted version-A document has, so no
document matches; the `sender`/`readBy` clauses and the `$addToSet` update
also name paths the schema does not declare, so even a matched document
would be written back unchanged (the update is stripped).  The operation
therefore rewrites every message to itself. -/
def markMessagesInChatAsRead (store : List Msg) (chatId receiverId : List Nat) :
    List Msg :=
  store.map (fun m => if storedChatIdField m == some chatId then m else m)

/-- `DatabaseStorage.getUnreadMessageCount` (part_012 lines 116-122):
`countDocuments({senderId: fromUserId, receiverId: userId, isRead: false})`. -/
def getUnreadMessageCount (store : List Msg) (userId fromUserId : List Nat) : Nat :=
  (store.filter (fun m =>
    m.senderId == fromUserId && m.receiverId == userId && m.isRead == false)).length

/-- `DatabaseStorage.getLastMessageBetweenUsers` (part_012 lines 124-131):
`findOne` over both sender/receiver orientations, sorted `createdAt`
descending. -/
def getLastMessageBetweenUsers (store : List Msg) (u1 u2 : List Nat) : Option Msg :=
  (insertionSort (fun a b => b.createdAt ≤ a.createdAt)
    (store.filter (fun m =>
      (m.senderId == u1 && m.receiverId == u2) ||
      (m.senderId == u2 && m.receiverId == u1)))).head?

/-- The `Set` of counterparty ids built in `getUserChats`: insertion-ordered,
duplicates dropped. -/
def setAdd (seen : List (List Nat)) (x : List Nat) : List (List Nat) :=
  if seen.contains x then seen else seen ++ [x]

def insertionDedup (l : List (List Nat)) : List (List Nat) := l.foldl setAdd []

/-- `DatabaseStorage.getUserChats` (part_012 lines 145-176): scan messages
where the user is sender or receiver, collect the other side of each (skipping
a falsy/empty id), then for each counterparty fetch the user record (dropping
counterparties whose record is gone) and the last message. -/
def getUserChats (st : StoreState) (userId : List Nat) :
    List (UserRec × Option Msg) :=
  let userMessages := st.msgs.filter (fun m =>
    m.senderId == userId || m.receiverId == userId)
  let otherIds := userMessages.map (fun m =>
    if m.senderId == userId then m.receiverId else m.senderId)
  let chatUserIds := insertionDedup (otherIds.filter (fun s => !s.isEmpty))
  chatUserIds.filterMap (fun otherId =>
    (getUser st.users otherId).map
      (fun u => (u, getLastMessageBetweenUsers st.msgs userId otherId)))

/-- `DatabaseStorage.deleteMessages` (part_012 lines 193-213): keep only the
ids that are valid ObjectIds, `deleteMany` those of them where the user is
sender or receiver, and return the deleted count.  The result is the new
message collection together with that count. -/
def deleteMessages (store : List Msg) (messageIds : List (List Nat))
    (userId : List Nat) : List Msg × Nat :=
  if messageIds.isEmpty then (store, 0)
  else
    let validObjectIds := messageIds.filter isValidObjectId
    if validObjectIds.isEmpty then (store, 0)
    else
      let target := fun (m : Msg) =>
        validObjectIds.contains m.id &&
          (m.senderId == userId || m.receiverId == userId)
      (store.filter (fun m => !(target m)), (store.filter target).length)

/-- `DatabaseStorage.deleteMessages` of src/server/storage.ts (lines
281-293), the near-duplicate the claim also cites: identical except that its
`deleteMany` filter is `{_id: {$in: ...}, senderId: userId}` — the sender
only, never the receiver. -/
def sDeleteMessages (store : List Msg) (messageIds : List (List Nat))
    (userId : List Nat) : List Msg × Nat :=
  if messageIds.isEmpty then (store, 0)
  else
    let validObjectIds := messageIds.filter isValidObjectId
    if validObjectIds.isEmpty then (store, 0)
    else
      let target := fun (m : Msg) =>
        validObjectIds.contains m.id && m.senderId == userId
      (store.filter (fun m => !(target m)), (store.filter target).length)

/-! ## Conversations route (src/server/routes.ts lines 145-182, over the
drizzle storage of src/server/storage.ts) -/

/-- A message row of the drizzle variant (`messages` table of
src/server/storage.ts): sender, receiver, ciphertext, read flag, timestamp. -/
structure DMsg where
  id : List Nat
  senderId : List Nat
  receiverId : List Nat
  encryptedContent : List Nat
  isRead : Bool
  timestamp : Nat
  deriving DecidableEq, Repr

/-- `DatabaseStorage.getAllUsers(excludeId)` (storage.ts lines 60-65). -/
def getAllUsers (users : List UserRec) (excludeId : List Nat) : List UserRec :=
  users.filter (fun u => u.id != excludeId)

/-- `DatabaseStorage.getLastMessageBetweenUsers` (storage.ts lines 120-133):
both orientations, ordered by `timestamp` descending, limit 1. -/
def dGetLastMessageBetweenUsers (msgs : List DMsg) (u1 u2 : List Nat) :
    Option DMsg :=
  (insertionSort (fun a b => b.timestamp ≤ a.timestamp)
    (msgs.filter (fun m =>
      (m.senderId == u1 && m.receiverId == u2) ||
      (m.senderId == u2 && m.receiverId == u1)))).head?

/-- `DatabaseStorage.getUnreadMessageCount` (storage.ts lines 106-118). -/
def dGetUnreadMessageCount (msgs : List DMsg) (userId fromUserId : List Nat) : Nat :=
  (msgs.filter (fun m =>
    m.receiverId == userId && m.senderId == fromUserId && m.isRead == false)).length

/-- One element of the `GET /api/conversations` response: the counterparty,
the last message spread with its decrypted content, and the unread count. -/
structure ConversationEntry where
  user : UserRec
  lastMessage : Option (DMsg × List Nat)
  unreadCount : Nat
  deriving DecidableEq, Repr

/-- The sort comparator of the handler: entries without a last message sort
after all entries with one; otherwise descending by the last message's
timestamp (`bTime - aTime`). -/
def convCmp (a b : ConversationEntry) : Int :=
  match a.lastMessage, b.lastMessage with
  | none, none => 0
  | none, some _ => 1
  | some _, none => -1
  | some av, some bv => (bv.1.timestamp : Int) - (av.1.timestamp : Int)

/-- The `GET /api/conversations` handler (routes.ts lines 145-182): for every
user other than the caller — `getAllUsers(userId)`, not a scan of the message
store — pair the last message (content decrypted) and unread count, then sort
by the comparator. -/
def apiConversations (users : List UserRec) (msgs : List DMsg)
    (userId : List Nat) : List ConversationEntry :=
  insertionSort (fun a b => convCmp a b ≤ 0)
    ((getAllUsers users userId).map (fun u =>
      { user := u,
        lastMessage := (dGetLastMessageBetweenUsers msgs userId u.id).map
          (fun m => (m, decrypt m.encryptedContent)),
        unreadCount := dGetUnreadMessageCount msgs userId u.id }))

/-! ## Realtime Gateway -/

inductive GatewayEvent
  | errorEv (message : List Nat)
  | newMessageEv (content : Option (List Nat))
  deriving DecidableEq, Repr

/-- What one handler invocation emits: events to the originating connection
(`socket.emit`) and at most one room broadcast (`io.to(room).emit`). -/
structure GatewayEffect where
  toCaller : List GatewayEvent
  toRoom : Option (List Nat × GatewayEvent)
  deriving DecidableEq, Repr

/-- The `sendMessage` socket handler of routes.ts (lines 244-315).  The
session user id and the message fields are the handler's inputs;
`storeResult` is the outcome of the awaited `storage.createMessage` call (the
`.ok` view carries `content = decrypt(encryptedContent)` per part_012).  On a
missing session or empty field the handler emits an `error` event and stops;
on a store error it emits `error` and does not broadcast; on success it
broadcasts `newMessage` to the chat room with
`content := decrypt(createdMessage.content)`. -/
def routesSendMessage (sessionUserId : Option (List Nat))
    (chatId content : List Nat) (storeResult : Except (List Nat) MsgView) :
    GatewayEffect :=
  match sessionUserId with
  | none => { toCaller := [.errorEv (str "Authentication required")], toRoom := none }
  | some _ =>
    if chatId.isEmpty || content.isEmpty then
      { toCaller := [.errorEv (str "Missing chat or message content")], toRoom := none }
    else
      match storeResult with
      | .error _ =>
        { toCaller := [.errorEv (str "Failed to save message")], toRoom := none }
      | .ok v =>
        { toCaller := [],
          toRoom := some (chatId, .newMessageEv (jsDecryptOpt v.content)) }

/-- The `message` socket handler of src/server/socket.ts (lines 83-99): call
`storage.createMessage` (the storage.ts mongoose variant, returning a
version-B record whose `content` is whatever was stored); on success
broadcast that message to its chat room; the `catch` only logs — nothing is
emitted to the caller on a store failure. -/
def socketTsMessageHandler (storeResult : Except (List Nat) SMsg) : GatewayEffect :=
  match storeResult with
  | .ok m =>
    { toCaller := [],
      toRoom := some (m.chatId, .newMessageEv (some m.content)) }
  | .error _ => { toCaller := [], toRoom := none }

/-- Room membership: a list of (connection id, room id) joins. -/
def roomMembers (joins : List (List Nat × List Nat)) (room : List Nat) :
    List (List Nat) :=
  (joins.filter (fun j => j.2 == room)).map (fun j => j.1)

/-- The `typing` handler (socket.ts lines 102-107, part_009 lines 117-123):
`socket.to(chatId)` — every connection joined to the room except the emitting
one. -/
def typingRelay (joins : List (List Nat × List Nat)) (self chatId : List Nat) :
    List (List Nat) :=
  (roomMembers joins chatId).filter (fun c => c != self)

/-- A `newMessage`/`message` broadcast (part_009 lines 106-107):
`io.to(chatId)` — every connection joined to the room, the sender's included. -/
def newMessageDelivery (joins : List (List Nat × List Nat)) (chatId : List Nat) :
    List (List Nat) :=
  roomMembers joins chatId

/-! ## Signup (POST /api/signup, routes.ts lines 364-406) -/

/-- The code units JavaScript `String.prototype.trim` strips: tab, LF, VT,
FF, CR, space, NBSP, the Unicode space separators (U+1680, U+2000-U+200A,
U+202F, U+205F, U+3000), the line separators U+2028/U+2029, and U+FEFF. -/
def isJsWhitespace (c : Nat) : Bool :=
  c == 9 || c == 10 || c == 11 || c == 12 || c == 13 || c == 32 ||
  c == 160 || c == 5760 || (8192 ≤ c && c ≤ 8202) || c == 8232 ||
  c == 8233 || c == 8239 || c == 8287 || c == 12288 || c == 65279

/-- JavaScript `String.prototype.trim`: whitespace stripped from both ends. -/
def jsTrim (s : List Nat) : List Nat :=
  ((s.dropWhile isJsWhitespace).reverse.dropWhile isJsWhitespace).reverse

/-- Stands for the `bcrypt.hash` library call; no claim inspects the hash
value, only that the stored credential is derived from the password. -/
def bcryptHash (password : List Nat) : List Nat := password

inductive SignupResponse
  | ok (user : UserRec)
  | validationError (message : List Nat)
  | conflict (message : List Nat)
  deriving DecidableEq, Repr

/-- The `POST /api/signup` handler: reject a missing/short trimmed username
(400), then a missing/short password (400), then a taken username (409) — all
before any write — else persist the new user and return it. -/
def signup (users : List UserRec) (username password firstName lastName : List Nat)
    (newId : List Nat) : SignupResponse × List UserRec :=
  if username.isEmpty || (jsTrim username).length < 2 then
    (.validationError (str "Username must be at least 2 characters"), users)
  else if password.isEmpty || password.length < 6 then
    (.validationError (str "Password must be at least 6 characters"), users)
  else
    match users.find? (fun u => u.username == jsTrim username) with
    | some _ =>
      (.conflict (str "Username already exists. Please choose a different one or login."),
       users)
    | none =>
      let u : UserRec := { id := newId, username := jsTrim username,
                           password := bcryptHash password,
                           firstName := jsTrim firstName,
                           lastName := jsTrim lastName, status := str "online" }
      (.ok u, users ++ [u])

/-! ## Concrete fixtures used by witnesses and counterexamples -/

/-- The message persisted by `createMessage("u2_u3", "u1", "kl")` (the
undeclared `chatId` field is dropped at save). -/
def mCex : Msg :=
  { id := str "m1", senderId := str "u1", receiverId := str "u2",
    encryptedContent := str "kl", isRead := false, createdAt := 5,
    updatedAt := 5 }

def u1Rec : UserRec :=
  { id := str "u1", username := str "alice", password := str "p",
    firstName := [], lastName := [], status := str "online" }

def u2Rec : UserRec :=
  { id := str "u2", username := str "bob", password := str "q",
    firstName := [], lastName := [], status := str "online" }

def uaRec : UserRec :=
  { id := str "aaaaaaaaaaaaaaaaaaaaaaaa", username := str "ana",
    password := str "p", firstName := [], lastName := [], status := str "online" }

def ubRec : UserRec :=
  { id := str "bbbbbbbbbbbbbbbbbbbbbbbb", username := str "ben",
    password := str "q", firstName := [], lastName := [], status := str "online" }

/-- One message from `uaRec` to `ubRec`. -/
def mW : Msg :=
  { id := str "cafecafecafecafecafecafe",
    senderId := str "aaaaaaaaaaaaaaaaaaaaaaaa",
    receiverId := str "bbbbbbbbbbbbbbbbbbbbbbbb",
    encryptedContent := [], isRead := false, createdAt := 1, updatedAt := 1 }

def stW : StoreState := { users := [uaRec, ubRec], msgs := [mW] }

/-- One unread message from u1 to u2 (the conversation "u1_u2"). -/
def m12 : Msg :=
  { id := str "cccccccccccccccccccccccc", senderId := str "u1",
    receiverId := str "u2", encryptedContent := str "kl", isRead := false,
    createdAt := 1, updatedAt := 1 }

/-- A message sent by alice to bob, targeted by delete calls. -/
def mDel : Msg :=
  { id := str "dddddddddddddddddddddddd", senderId := str "alice",
    receiverId := str "bob", encryptedContent := [], isRead := false,
    createdAt := 0, updatedAt := 0 }

/-- A stored message of the u1-u2 conversation whose ciphertext is
`encrypt("hi")`. -/
def mHi : Msg :=
  { id := str "eeeeeeeeeeeeeeeeeeeeeeee", senderId := str "u1",
    receiverId := str "u2", encryptedContent := encrypt (str "hi"),
    isRead := false, createdAt := 1, updatedAt := 1 }

/-- A user record whose username "ab" is already taken. -/
def abUser : UserRec :=
  { id := str "i1", username := str "ab", password := str "h",
    firstName := [], lastName := [], status := str "online" }

/-! ## Helper lemmas -/

theorem decryptChar_encryptChar (c : Nat) : decryptChar (encryptChar c) = c := by
  by_cases h : isAsciiLetter c = true
  · have hlt : c < 123 := by
      simp only [isAsciiLetter, Bool.or_eq_true, Bool.and_eq_true,
        decide_eq_true_eq] at h
      omega
    have key : ∀ n, n < 123 → decryptChar (encryptChar n) = n := by decide
    exact key c hlt
  · simp [encryptChar, decryptChar, h]

theorem encryptChar_nonletter {c : Nat} (h : isAsciiLetter c = false) :
    encryptChar c = c := by simp [encryptChar, h]

theorem decryptChar_nonletter {c : Nat} (h : isAsciiLetter c = false) :
    decryptChar c = c := by simp [decryptChar, h]

theorem decrypt_encrypt (s : List Nat) : decrypt (encrypt s) = s := by
  induction s with
  | nil => rfl
  | cons c t ih =>
    simp only [encrypt, decrypt, List.map_cons] at ih ⊢
    rw [decryptChar_encryptChar]
    exact congrArg _ ih

theorem mem_setAdd (seen : List (List Nat)) (x y : List Nat) :
    y ∈ setAdd seen x ↔ y ∈ seen ∨ y = x := by
  unfold setAdd
  by_cases h : seen.contains x
  · rw [if_pos h]
    have hx : x ∈ seen := by simpa using h
    constructor
    · exact Or.inl
    · rintro (hy | rfl)
      · exact hy
      · exact hx
  · rw [if_neg h]
    simp [List.mem_append]

theorem mem_foldl_setAdd (l : List (List Nat)) (acc : List (List Nat))
    (y : List Nat) : y ∈ l.foldl setAdd acc ↔ y ∈ acc ∨ y ∈ l := by
  induction l generalizing acc with
  | nil => simp
  | cons a t ih =>
    simp only [List.foldl_cons, ih, mem_setAdd, List.mem_cons]
    tauto

theorem mem_insertionDedup (l : List (List Nat)) (y : List Nat) :
    y ∈ insertionDedup l ↔ y ∈ l := by
  simp [insertionDedup, mem_foldl_setAdd]

/-! ## Claims -/

/-- Claim C1: decrypt(encrypt(x)) = x for every string; encrypt and decrypt
are total over arbitrary strings and leave every non-letter character
unchanged in place; hence a message persisted by createMessage with encrypted
content has a stored ciphertext whose decryption is the original plaintext. -/
theorem cipher_roundtrip_spec :
    (∀ s : List Nat, decrypt (encrypt s) = s) ∧
    (∀ (s : List Nat) (i c : Nat), s[i]? = some c → isAsciiLetter c = false →
      (encrypt s)[i]? = some c ∧ (decrypt s)[i]? = some c) ∧
    (∀ (store : List Msg) (chatId senderId plain : List Nat) (isRead : Bool)
        (newId : List Nat) (now : Nat),
      match createMessage store chatId senderId (encrypt plain) isRead newId now with
      | .ok (_, v) => decrypt v.msg.encryptedContent = plain
      | .error _ => True) := by
  refine ⟨decrypt_encrypt, ?_, ?_⟩
  · intro s i c hs hc
    constructor
    · rw [encrypt, List.getElem?_map, hs]
      simp [encryptChar_nonletter hc]
    · rw [decrypt, List.getElem?_map, hs]
      simp [decryptChar_nonletter hc]
  · intro store chatId senderId plain isRead newId now
    unfold createMessage
    cases h : deriveReceiver chatId senderId with
    | none => trivial
    | some r => simpa using decrypt_encrypt plain

/-- Witness for C1 at the concrete string "!" (code 33, not a letter). -/
theorem cipher_roundtrip_spec_witness :
    ([33] : List Nat)[0]? = some 33 ∧ isAsciiLetter 33 = false ∧
    (encrypt [33])[0]? = some 33 ∧ (decrypt [33])[0]? = some 33 := by
  have h := cipher_roundtrip_spec.2.1 [33] 0 33 (by decide) (by decide)
  exact ⟨by decide, by decide, h.1, h.2⟩

/-- Claim C2 counterexample: createMessage on conversation "u2_u3" with sender
"u1" — a conversationId that does not contain the sender — does not fail with
a validation error; it persists a message whose receiver is "u2". -/
theorem createMessage_foreign_chat_succeeds :
    createMessage [] (str "u2_u3") (str "u1") (str "kl") false (str "m1") 5 =
      .ok ([mCex], { msg := mCex, content := some (str "hi") }) := by decide

/-- deriveReceiver yields nothing exactly when either every
underscore-separated component of the chatId equals the sender id, or the
first component differing from it is the empty string (both make
`receiverId` falsy in the source). -/
theorem deriveReceiver_none_iff (chatId senderId : List Nat) :
    deriveReceiver chatId senderId = none ↔
      (∀ p ∈ splitOnSep 95 chatId, p = senderId) ∨
      (splitOnSep 95 chatId).find? (fun piece => piece != senderId) =
        some [] := by
  unfold deriveReceiver
  cases hf : (splitOnSep 95 chatId).find? (fun piece => piece != senderId) with
  | none =>
    constructor
    · intro _
      exact Or.inl fun p hp => by simpa using List.find?_eq_none.mp hf p hp
    · intro _
      rfl
  | some r =>
    dsimp only
    by_cases hre : r.isEmpty
    · obtain rfl : r = [] := List.isEmpty_iff.mp hre
      constructor
      · intro _
        exact Or.inr (by first | exact hf | rfl)
      · intro _
        simp
    · rw [if_neg hre]
      constructor
      · intro h
        exact absurd h (by simp)
      · rintro (hall | hsome)
        · exact absurd (hall r (List.mem_of_find?_eq_some hf))
            (by simpa using List.find?_some hf)
        · injection hsome with hr0
          rw [hr0] at hre
          exact absurd rfl hre

/-- Claim C2 (amended): createMessage fails — persisting nothing — exactly
when either every underscore-separated component of the conversationId
equals the sender id or the first component differing from it is the empty
string; otherwise it persists one message carrying the given (already
encrypted) content and the current timestamp, whose receiver is a non-empty
component of the conversationId different from the sender (even when the
conversationId does not contain the sender), and returns the message with
content decrypted. -/
theorem createMessage_spec (store : List Msg) (chatId senderId content : List Nat)
    (isRead : Bool) (newId : List Nat) (now : Nat) :
    ((createMessage store chatId senderId content isRead newId now).isOk = false ↔
      (∀ p ∈ splitOnSep 95 chatId, p = senderId) ∨
        (splitOnSep 95 chatId).find? (fun piece => piece != senderId) =
          some []) ∧
    (match createMessage store chatId senderId content isRead newId now with
     | .error _ => True
     | .ok (store', v) =>
       store' = store ++ [v.msg] ∧
       v.msg.senderId = senderId ∧ v.msg.encryptedContent = content ∧
       v.msg.createdAt = now ∧ v.content = some (decrypt content) ∧
       v.msg.receiverId ∈ splitOnSep 95 chatId ∧
       v.msg.receiverId ≠ senderId ∧ v.msg.receiverId ≠ []) := by
  constructor
  · unfold createMessage
    cases hd : deriveReceiver chatId senderId with
    | none =>
      exact ⟨fun _ => (deriveReceiver_none_iff chatId senderId).mp hd,
        fun _ => rfl⟩
    | some r =>
      constructor
      · intro hfalse
        simp [Except.isOk, Except.toBool] at hfalse
      · intro hrhs
        have hnone : deriveReceiver chatId senderId = none :=
          (deriveReceiver_none_iff chatId senderId).mpr hrhs
        rw [hd] at hnone
        exact absurd hnone (by simp)
  · unfold createMessage
    cases hd : deriveReceiver chatId senderId with
    | none => trivial
    | some r =>
      unfold deriveReceiver at hd
      cases hf : (splitOnSep 95 chatId).find? (fun piece => piece != senderId) with
      | none =>
        rw [hf] at hd
        dsimp only at hd
        exact absurd hd (by simp)
      | some r' =>
        rw [hf] at hd
        dsimp only at hd
        by_cases hre : r'.isEmpty
        · rw [if_pos hre] at hd
          exact absurd hd (by simp)
        · rw [if_neg hre] at hd
          injection hd with hrr
          subst hrr
          refine ⟨rfl, rfl, rfl, rfl, rfl, List.mem_of_find?_eq_some hf,
            by simpa using List.find?_some hf, fun h0 => ?_⟩
          have hr0 : r' = [] := h0
          rw [hr0] at hre
          exact absurd rfl hre

/-- Witness for C2 at conversation "u1_u1" and sender "u1": every component
equals the sender, so the call fails. -/
theorem createMessage_spec_witness :
    (createMessage [] (str "u1_u1") (str "u1") (str "k") false (str "m") 0).isOk
      = false :=
  ((createMessage_spec [] (str "u1_u1") (str "u1") (str "k") false
    (str "m") 0).1).mpr (by decide)

/-- Claim C3 counterexample: with registered users u1 and u2 and an empty
message store, the GET /api/conversations handler for u1 still lists
counterparty u2 — a counterparty with zero shared messages (its lastMessage
null, its unread count 0). -/
theorem apiConversations_lists_zero_message_user :
    (apiConversations [u1Rec, u2Rec] [] (str "u1")).map (fun c => c.user.id) =
      [str "u2"] ∧
    (apiConversations [u1Rec, u2Rec] [] (str "u1")).map
      (fun c => (c.lastMessage, c.unreadCount)) = [(none, 0)] := by decide

/-- Claim C3 (amended): the scan-based aggregator getUserChats (part_012)
never lists a zero-message counterparty — every element of its result has at
least one stored message between the user and that counterparty; the
GET /api/conversations route handler, however, lists every registered user
other than the caller, zero-message counterparties included. -/
theorem getUserChats_counterparty_has_message (st : StoreState)
    (userId : List Nat) :
    ∀ e ∈ getUserChats st userId, ∃ m ∈ st.msgs,
      (m.senderId = userId ∧ m.receiverId = e.1.id) ∨
      (m.senderId = e.1.id ∧ m.receiverId = userId) := by
  intro e he
  unfold getUserChats at he
  rw [List.mem_filterMap] at he
  obtain ⟨otherId, hmem, hmap⟩ := he
  rw [Option.map_eq_some'] at hmap
  obtain ⟨u, hfind, hue⟩ := hmap
  have huid : u.id = otherId := by
    unfold getUser at hfind
    by_cases hv : isValidObjectId otherId
    · rw [if_pos hv] at hfind
      simpa using List.find?_some hfind
    · rw [if_neg hv] at hfind
      exact absurd hfind (by simp)
  have h1 := (mem_insertionDedup _ _).mp hmem
  rw [List.mem_filter] at h1
  obtain ⟨h2, -⟩ := h1
  rw [List.mem_map] at h2
  obtain ⟨m, hm, heq⟩ := h2
  rw [List.mem_filter] at hm
  obtain ⟨hmm, hside⟩ := hm
  have hid : e.1.id = otherId := by rw [← hue]; exact huid
  by_cases hs : m.senderId = userId
  · refine ⟨m, hmm, Or.inl ⟨hs, ?_⟩⟩
    rw [hid, ← heq, if_pos (by simpa using hs)]
  · have hrecv : m.receiverId = userId := by
      rcases Bool.or_eq_true .. ▸ hside with h | h
      · exact absurd (by simpa using h) hs
      · simpa using h
    refine ⟨m, hmm, Or.inr ⟨?_, hrecv⟩⟩
    rw [hid, ← heq, if_neg (by simpa using hs)]

/-- Witness for C3 at a concrete store: the one chat partner of `uaRec` in
`stW` comes with the shared message `mW`. -/
theorem getUserChats_counterparty_has_message_witness :
    ∃ m ∈ stW.msgs,
      (m.senderId = str "aaaaaaaaaaaaaaaaaaaaaaaa" ∧
        m.receiverId = (ubRec, some mW).1.id) ∨
      (m.senderId = (ubRec, some mW).1.id ∧
        m.receiverId = str "aaaaaaaaaaaaaaaaaaaaaaaa") :=
  getUserChats_counterparty_has_message stW (str "aaaaaaaaaaaaaaaaaaaaaaaa")
    (ubRec, some mW) (by decide)

/-- Claim C4 (code bug, evaluated): in the state with exactly one unread
message from u1 to u2 in conversation "u1_u2", the markRead step of fetching
the history as u2 changes nothing — its updateMany filters on the chatId
path no persisted version-A document carries and writes only the undeclared
readBy path — so getUnreadCount("u2","u1") stays 1 instead of transitioning
to 0 (getUnreadCount("u1","u2") is 0 throughout). -/
theorem markRead_does_not_clear_unread :
    getUnreadMessageCount [m12] (str "u2") (str "u1") = 1 ∧
    markMessagesInChatAsRead [m12] (str "u1_u2") (str "u2") = [m12] ∧
    getUnreadMessageCount
      (markMessagesInChatAsRead [m12] (str "u1_u2") (str "u2"))
      (str "u2") (str "u1") = 1 ∧
    getUnreadMessageCount
      (markMessagesInChatAsRead [m12] (str "u1_u2") (str "u2"))
      (str "u1") (str "u2") = 0 := by decide

theorem contains_filter (l : List (List Nat)) (p : List Nat → Bool)
    (x : List Nat) : (l.filter p).contains x = (l.contains x && p x) := by
  induction l with
  | nil => rfl
  | cons a t ih =>
    rw [List.filter_cons]
    by_cases hp : p a
    · rw [if_pos hp]
      rw [Bool.eq_iff_iff]
      simp only [List.contains_cons, Bool.or_eq_true, Bool.and_eq_true, ih]
      by_cases hx : x = a
      · subst hx; simp [hp]
      · simp [hx, beq_iff_eq]
    · rw [if_neg hp]
      rw [Bool.eq_iff_iff]
      simp only [List.contains_cons, Bool.or_eq_true, Bool.and_eq_true, ih]
      by_cases hx : x = a
      · subst hx; simp [hp]
      · simp [hx, beq_iff_eq]

/-- deleteMessages, in closed form: the kept messages and the deleted count
are both filters of the store by the listed-valid-owned predicate. -/
theorem deleteMessages_eq (store : List Msg) (ids : List (List Nat))
    (userId : List Nat) :
    deleteMessages store ids userId =
      (store.filter (fun m => !(ids.contains m.id && isValidObjectId m.id &&
         (m.senderId == userId || m.receiverId == userId))),
       (store.filter (fun m => ids.contains m.id && isValidObjectId m.id &&
         (m.senderId == userId || m.receiverId == userId))).length) := by
  have hpred : ∀ m : Msg,
      ((ids.filter isValidObjectId).contains m.id &&
        (m.senderId == userId || m.receiverId == userId)) =
      (ids.contains m.id && isValidObjectId m.id &&
        (m.senderId == userId || m.receiverId == userId)) := by
    intro m
    rw [contains_filter, Bool.and_assoc]
  unfold deleteMessages
  by_cases h0 : ids.isEmpty
  · obtain rfl : ids = [] := List.isEmpty_iff.mp h0
    rw [if_pos h0]
    simp
  · rw [if_neg h0]
    by_cases h1 : (ids.filter isValidObjectId).isEmpty
    · rw [if_pos h1]
      have hnil : ids.filter isValidObjectId = [] := List.isEmpty_iff.mp h1
      have hv : ∀ x ∈ ids, isValidObjectId x = false := by
        intro x hx
        cases hq : isValidObjectId x
        · rfl
        · exact absurd (List.mem_filter.mpr ⟨hx, hq⟩)
            (by rw [hnil]; exact List.not_mem_nil x)
      have hbig : ∀ m : Msg, (ids.contains m.id && isValidObjectId m.id &&
          (m.senderId == userId || m.receiverId == userId)) = false := by
        intro m
        cases hc : ids.contains m.id
        · simp
        · simp [hv m.id (by simpa using hc)]
      rw [List.filter_eq_self.mpr (fun m _ => by simp only [hbig m]; rfl),
        List.filter_eq_nil_iff.mpr (fun m _ => by simp only [hbig m]; decide)]
      rfl
    · rw [if_neg h1]
      simp only [hpred]

/-- sDeleteMessages (the storage.ts sender-only near-duplicate), in closed
form. -/
theorem sDeleteMessages_eq (store : List Msg) (ids : List (List Nat))
    (userId : List Nat) :
    sDeleteMessages store ids userId =
      (store.filter (fun m => !(ids.contains m.id && isValidObjectId m.id &&
         m.senderId == userId)),
       (store.filter (fun m => ids.contains m.id && isValidObjectId m.id &&
         m.senderId == userId)).length) := by
  have hpred : ∀ m : Msg,
      ((ids.filter isValidObjectId).contains m.id && m.senderId == userId) =
      (ids.contains m.id && isValidObjectId m.id && m.senderId == userId) := by
    intro m
    rw [contains_filter, Bool.and_assoc]
  unfold sDeleteMessages
  by_cases h0 : ids.isEmpty
  · obtain rfl : ids = [] := List.isEmpty_iff.mp h0
    rw [if_pos h0]
    simp
  · rw [if_neg h0]
    by_cases h1 : (ids.filter isValidObjectId).isEmpty
    · rw [if_pos h1]
      have hnil : ids.filter isValidObjectId = [] := List.isEmpty_iff.mp h1
      have hv : ∀ x ∈ ids, isValidObjectId x = false := by
        intro x hx
        cases hq : isValidObjectId x
        · rfl
        · exact absurd (List.mem_filter.mpr ⟨hx, hq⟩)
            (by rw [hnil]; exact List.not_mem_nil x)
      have hbig : ∀ m : Msg, (ids.contains m.id && isValidObjectId m.id &&
          m.senderId == userId) = false := by
        intro m
        cases hc : ids.contains m.id
        · simp
        · simp [hv m.id (by simpa using hc)]
      rw [List.filter_eq_self.mpr (fun m _ => by simp only [hbig m]; rfl),
        List.filter_eq_nil_iff.mpr (fun m _ => by simp only [hbig m]; decide)]
      rfl
    · rw [if_neg h1]
      simp only [hpred]

/-- Claim C5 counterexample: the storage.ts deleteMessages variant the claim
also cites deletes only sender-owned messages, so a listed, well-formed
message id of which the requesting user is the receiver is left in the store
and the call returns 0 — contradicting "deletes exactly those listed
messages of which requestingUserId is the sender or the receiver". -/
theorem sDeleteMessages_ignores_receiver :
    mDel.receiverId = str "bob" ∧ isValidObjectId mDel.id = true ∧
    sDeleteMessages [mDel] [str "dddddddddddddddddddddddd"] (str "bob") =
      ([mDel], 0) := by decide

/-- Claim C5 (amended): part_012's deleteMessages removes exactly the
messages whose id is listed and a well-formed ObjectId and of which the
requesting user is sender or receiver, while the storage.ts near-duplicate
(sDeleteMessages) removes only the sender-owned ones among those; both
silently ignore other ids, return the number actually removed, and on a
single id owned by neither side delete nothing, leaving the store
unchanged. -/
theorem deleteMessages_spec (store : List Msg) (ids : List (List Nat))
    (userId : List Nat) :
    ((deleteMessages store ids userId).1 = store.filter (fun m =>
       !(ids.contains m.id && isValidObjectId m.id &&
         (m.senderId == userId || m.receiverId == userId)))) ∧
    ((deleteMessages store ids userId).2 = (store.filter (fun m =>
       ids.contains m.id && isValidObjectId m.id &&
         (m.senderId == userId || m.receiverId == userId))).length) ∧
    (∀ id', (∀ m ∈ store, m.id = id' →
        ¬(m.senderId = userId ∨ m.receiverId = userId)) →
      deleteMessages store [id'] userId = (store, 0)) ∧
    ((sDeleteMessages store ids userId).1 = store.filter (fun m =>
       !(ids.contains m.id && isValidObjectId m.id &&
         m.senderId == userId))) ∧
    ((sDeleteMessages store ids userId).2 = (store.filter (fun m =>
       ids.contains m.id && isValidObjectId m.id &&
         m.senderId == userId)).length) ∧
    (∀ id', (∀ m ∈ store, m.id = id' →
        ¬(m.senderId = userId ∨ m.receiverId = userId)) →
      sDeleteMessages store [id'] userId = (store, 0)) := by
  refine ⟨by rw [deleteMessages_eq], by rw [deleteMessages_eq], ?_,
    by rw [sDeleteMessages_eq], by rw [sDeleteMessages_eq], ?_⟩
  · intro id' hid
    have hbig : ∀ m ∈ store,
        (([id'] : List (List Nat)).contains m.id && isValidObjectId m.id &&
          (m.senderId == userId || m.receiverId == userId)) = false := by
      intro m hm
      cases hc : ([id'] : List (List Nat)).contains m.id
      · simp
      · have hmid : m.id = id' := by simpa using hc
        have hno := hid m hm hmid
        have h1 : (m.senderId == userId) = false := by
          cases hq : m.senderId == userId
          · rfl
          · exact absurd (Or.inl (by simpa using hq)) hno
        have h2 : (m.receiverId == userId) = false := by
          cases hq : m.receiverId == userId
          · rfl
          · exact absurd (Or.inr (by simpa using hq)) hno
        cases hval : isValidObjectId m.id
        · simp
        · simp [h1, h2]
    rw [deleteMessages_eq,
      List.filter_eq_self.mpr (fun m hm => by simp only [hbig m hm]; rfl),
      List.filter_eq_nil_iff.mpr (fun m hm => by simp only [hbig m hm]; decide)]
    rfl
  · intro id' hid
    have hbig : ∀ m ∈ store,
        (([id'] : List (List Nat)).contains m.id && isValidObjectId m.id &&
          m.senderId == userId) = false := by
      intro m hm
      cases hc : ([id'] : List (List Nat)).contains m.id
      · simp
      · have hmid : m.id = id' := by simpa using hc
        have hno := hid m hm hmid
        have h1 : (m.senderId == userId) = false := by
          cases hq : m.senderId == userId
          · rfl
          · exact absurd (Or.inl (by simpa using hq)) hno
        cases hval : isValidObjectId m.id
        · simp
        · simp [h1]
    rw [sDeleteMessages_eq,
      List.filter_eq_self.mpr (fun m hm => by simp only [hbig m hm]; rfl),
      List.filter_eq_nil_iff.mpr (fun m hm => by simp only [hbig m hm]; decide)]
    rfl

/-- Witness for C5: an outsider's delete of a message between alice and bob
returns 0 and leaves the store unchanged, under both variants. -/
theorem deleteMessages_spec_witness :
    deleteMessages [mDel] [str "dddddddddddddddddddddddd"] (str "mallory") =
      ([mDel], 0) ∧
    sDeleteMessages [mDel] [str "dddddddddddddddddddddddd"] (str "mallory") =
      ([mDel], 0) :=
  ⟨(deleteMessages_spec [mDel] [str "dddddddddddddddddddddddd"]
      (str "mallory")).2.2.1 (str "dddddddddddddddddddddddd") (by decide),
   (deleteMessages_spec [mDel] [str "dddddddddddddddddddddddd"]
      (str "mallory")).2.2.2.2.2 (str "dddddddddddddddddddddddd") (by decide)⟩

/-- Claim C6 (code bug, evaluated): markRead("u1_u2", "u2") on a
conversation holding one unread message sent by u1 — a message the claim
requires to be marked read by u2 — marks nothing: the updateMany filters on
the chatId path no persisted version-A document carries, and its
readBy/sender clauses and $addToSet update name undeclared paths, so the
operation is a no-op.  Idempotence itself holds (a no-op twice is a no-op). -/
theorem markRead_marks_no_message :
    m12.senderId ≠ str "u2" ∧ m12.isRead = false ∧
    markMessagesInChatAsRead [m12] (str "u1_u2") (str "u2") = [m12] ∧
    markMessagesInChatAsRead
        (markMessagesInChatAsRead [m12] (str "u1_u2") (str "u2"))
        (str "u1_u2") (str "u2") =
      markMessagesInChatAsRead [m12] (str "u1_u2") (str "u2") := by decide

/-- Claim C7 (code bug, evaluated): persisting one message of conversation
"u1_u2" via createMessage (ciphertext encrypt("hi")) and then fetching
getMessages("u1_u2") returns the empty list — the find filters on the chatId
path that version-A documents never carry — so the conversation's stored
message, whose ciphertext would decrypt back to "hi", is never returned; a
conversationId with no stored messages also yields the empty sequence rather
than an error. -/
theorem getMessages_returns_no_messages :
    createMessage [] (str "u1_u2") (str "u1") (encrypt (str "hi")) false
        (str "eeeeeeeeeeeeeeeeeeeeeeee") 1 =
      .ok ([mHi], { msg := mHi, content := some (str "hi") }) ∧
    getMessagesByChatId [mHi] (str "u1_u2") = [] ∧
    decrypt mHi.encryptedContent = str "hi" ∧
    getMessagesByChatId [mHi] (str "u9_u8") = [] := by decide

/-- Claim C8 counterexample: the `message` handler of src/server/socket.ts
with a failing store call emits nothing to the originating connection (the
catch block only logs) — the failure is silently dropped, not reported via an
error event or acknowledgment. -/
theorem socketTs_store_failure_silently_dropped :
    socketTsMessageHandler (.error (str "Database error")) =
      { toCaller := [], toRoom := none } := rfl

/-- Claim C8 (amended): the routes.ts sendMessage handler answers every store
failure with an error event to the caller and broadcasts nothing; the
socket.ts message handler also broadcasts nothing on a store failure but
emits nothing to the caller either (the failure is only logged); in both
handlers a room broadcast happens only on a successful store result. -/
theorem sendMessage_failure_handling (sessionUserId : Option (List Nat))
    (chatId content e : List Nat) :
    (routesSendMessage sessionUserId chatId content (.error e)).toCaller ≠ [] ∧
    (routesSendMessage sessionUserId chatId content (.error e)).toRoom = none ∧
    (socketTsMessageHandler (.error e)).toCaller = [] ∧
    (socketTsMessageHandler (.error e)).toRoom = none := by
  refine ⟨?_, ?_, rfl, rfl⟩
  · cases sessionUserId with
    | none => simp [routesSendMessage]
    | some u =>
      unfold routesSendMessage
      by_cases h : (chatId.isEmpty || content.isEmpty) = true
      · rw [if_pos h]
        simp
      · rw [if_neg h]
        simp
  · cases sessionUserId with
    | none => rfl
    | some u =>
      unfold routesSendMessage
      by_cases h : (chatId.isEmpty || content.isEmpty) = true
      · rw [if_pos h]
      · rw [if_neg h]

/-- Witness for C8's amended theorem at concrete inputs. -/
theorem sendMessage_failure_handling_witness :
    (routesSendMessage (some (str "u1")) (str "u1_u2") (str "hello")
      (.error (str "db"))).toCaller ≠ [] ∧
    (routesSendMessage (some (str "u1")) (str "u1_u2") (str "hello")
      (.error (str "db"))).toRoom = none ∧
    (socketTsMessageHandler (.error (str "db"))).toCaller = [] ∧
    (socketTsMessageHandler (.error (str "db"))).toRoom = none :=
  sendMessage_failure_handling (some (str "u1")) (str "u1_u2") (str "hello")
    (str "db")

/-- Claim C9 counterexample: the username " a" has 2 characters and the
password "123456" has 6, yet signup rejects it with the username validation
error (the handler checks the trimmed length); and with username "ab" already
taken, a well-formed signup returns the conflict response, not success —
in both cases the user store is unchanged. -/
theorem signup_claim_fails :
    signup [] (str " a") (str "123456") [] [] (str "id1") =
      (.validationError (str "Username must be at least 2 characters"), []) ∧
    signup [abUser] (str "ab") (str "123456") [] [] (str "id2") =
      (.conflict
        (str "Username already exists. Please choose a different one or login."),
       [abUser]) := by decide

/-- Claim C9 (amended): signup succeeds — appending exactly one user — when
the trimmed username has at least 2 characters, the password at least 6, and
no stored user already holds the trimmed username; signup with username "a"
fails with the username validation error, a password shorter than 6
characters fails with a validation error, and every rejected signup leaves
the user store unchanged. -/
theorem signup_spec (users : List UserRec)
    (username password firstName lastName newId : List Nat) :
    (2 ≤ (jsTrim username).length → 6 ≤ password.length →
      (∀ u ∈ users, u.username ≠ jsTrim username) →
      signup users username password firstName lastName newId =
        (.ok { id := newId, username := jsTrim username,
               password := bcryptHash password, firstName := jsTrim firstName,
               lastName := jsTrim lastName, status := str "online" },
         users ++ [{ id := newId, username := jsTrim username,
                     password := bcryptHash password,
                     firstName := jsTrim firstName,
                     lastName := jsTrim lastName, status := str "online" }])) ∧
    (signup users (str "a") password firstName lastName newId =
      (.validationError (str "Username must be at least 2 characters"),
       users)) ∧
    (password.length < 6 → ∃ msg,
      signup users username password firstName lastName newId =
        (.validationError msg, users)) ∧
    (∀ r st', signup users username password firstName lastName newId =
        (r, st') → (∀ u, r ≠ .ok u) → st' = users) := by
  refine ⟨?_, ?_, ?_, ?_⟩
  · intro h1 h2 h3
    have hne : username.isEmpty = false := by
      cases username with
      | nil => simp [jsTrim] at h1
      | cons a t => rfl
    have hpe : password.isEmpty = false := by
      cases password with
      | nil => simp at h2
      | cons a t => rfl
    have hfind : users.find? (fun u => u.username == jsTrim username) = none :=
      List.find?_eq_none.mpr (fun u hu => by simpa using h3 u hu)
    unfold signup
    rw [if_neg (by rw [hne]; simpa using by omega),
      if_neg (by rw [hpe]; simpa using by omega), hfind]
  · unfold signup
    rw [if_pos (by decide)]
  · intro hp
    unfold signup
    by_cases hu : (username.isEmpty || decide ((jsTrim username).length < 2)) = true
    · exact ⟨_, by rw [if_pos hu]⟩
    · have hpw : (password.isEmpty || decide (password.length < 6)) = true := by
        simp [hp]
      exact ⟨_, by rw [if_neg hu, if_pos hpw]⟩
  · intro r st' heq hok
    unfold signup at heq
    by_cases hu : (username.isEmpty || decide ((jsTrim username).length < 2)) = true
    · rw [if_pos hu] at heq
      cases heq
      rfl
    · rw [if_neg hu] at heq
      by_cases hpw : (password.isEmpty || decide (password.length < 6)) = true
      · rw [if_pos hpw] at heq
        cases heq
        rfl
      · rw [if_neg hpw] at heq
        cases hfind : users.find? (fun u => u.username == jsTrim username) with
        | some u =>
          rw [hfind] at heq
          cases heq
          rfl
        | none =>
          rw [hfind] at heq
          cases heq
          exact absurd rfl (hok _)

/-- Witness for C9: a fresh signup with "ab"/"123456" on the empty store. -/
theorem signup_spec_witness :
    signup [] (str "ab") (str "123456") [] [] (str "id9") =
      (.ok { id := str "id9", username := jsTrim (str "ab"),
             password := bcryptHash (str "123456"), firstName := jsTrim [],
             lastName := jsTrim [], status := str "online" },
       [{ id := str "id9", username := jsTrim (str "ab"),
          password := bcryptHash (str "123456"), firstName := jsTrim [],
          lastName := jsTrim [], status := str "online" }]) :=
  (signup_spec [] (str "ab") (str "123456") [] [] (str "id9")).1
    (by decide) (by decide) (by decide)

/-- Claim C10: a typing event relayed with socket.to(chatId) reaches every
other connection joined to the room and never the emitting connection itself,
while a newMessage broadcast with io.to(chatId) reaches every connection
joined to the room, the sender's own connection included. -/
theorem typing_excludes_self_newMessage_includes_sender
    (joins : List (List Nat × List Nat)) (self chatId : List Nat) :
    self ∉ typingRelay joins self chatId ∧
    (∀ d ∈ roomMembers joins chatId, d ≠ self →
      d ∈ typingRelay joins self chatId) ∧
    newMessageDelivery joins chatId = roomMembers joins chatId ∧
    (self ∈ roomMembers joins chatId →
      self ∈ newMessageDelivery joins chatId) := by
  refine ⟨?_, ?_, rfl, fun h => h⟩
  · intro h
    rw [typingRelay, List.mem_filter] at h
    simp at h
  · intro d hd hne
    rw [typingRelay, List.mem_filter]
    exact ⟨hd, by simpa using hne⟩

/-- Witness for C10: in a room with connections c1 and c2, c1's typing event
reaches c2, and c1's own newMessage broadcast reaches c1 itself. -/
theorem typing_newMessage_delivery_witness :
    (str "c2") ∈ typingRelay [(str "c1", str "r"), (str "c2", str "r")]
      (str "c1") (str "r") ∧
    (str "c1") ∈ newMessageDelivery [(str "c1", str "r"), (str "c2", str "r")]
      (str "r") :=
  ⟨(typing_excludes_self_newMessage_includes_sender
      [(str "c1", str "r"), (str "c2", str "r")] (str "c1") (str "r")).2.1
      (str "c2") (by decide) (by decide),
   (typing_excludes_self_newMessage_includes_sender
      [(str "c1", str "r"), (str "c2", str "r")] (str "c1") (str "r")).2.2.2
      (by decide)⟩
